import Mathlib

/-!
Shallow embedding of the Alberta land-use feasibility tool's parsing,
municipality-resolution and policy-heuristic pipeline
(src/property_parser.py, src/municipality_lookup.py, src/policy_retrieval.py).

Python regular-expression searches are embedded as explicit leftmost-search,
greedy-with-backtracking matchers over `List Char`; Python dicts holding
string fields become association lists in insertion order; machine floats in
the source hold only small decimal literals and are embedded as `ℚ`.
-/

/-- Python's `\s` character class (ASCII range), used by the regex patterns. -/
def isWSChar (c : Char) : Bool :=
  c = ' ' || c = '\t' || c = '\n' || c = '\r' || c = '\x0b' || c = '\x0c'

/-- Python's `\d` character class (ASCII digits). -/
def isDigitChar (c : Char) : Bool := c.isDigit

/-- The `[NSEW]` class of the quarter-section pattern, case-insensitive. -/
def isNSEWChar (c : Char) : Bool :=
  let l := c.toLower
  l = 'n' || l = 's' || l = 'e' || l = 'w'

/-- The `[WE]` class of the meridian direction, case-insensitive. -/
def isWEChar (c : Char) : Bool :=
  let l := c.toLower
  l = 'w' || l = 'e'

/-- Python's `\w` character class (ASCII subset: letters, digits, underscore). -/
def isWordChar (c : Char) : Bool := c.isAlphanum || c = '_'

/-- The `[A-Za-z0-9\s]` class of the street-address pattern. -/
def isStreetBodyChar (c : Char) : Bool := c.isAlphanum || isWSChar c

/-- `strIn needle hay` is Python's substring test `needle in hay`. -/
def strInChars (n h : List Char) : Bool := h.tails.any (fun t => n.isPrefixOf t)

/-- Python's `in` operator on strings. -/
def strIn (n h : String) : Bool := strInChars n.toList h.toList

/-- Python's `str.lower()` (per-character, ASCII). -/
def py_lower (s : String) : String := String.mk (s.toList.map Char.toLower)

/-- Python's `str.strip()` (whitespace from both ends). -/
def py_strip (s : String) : String :=
  String.mk (((s.toList.dropWhile isWSChar).reverse.dropWhile isWSChar).reverse)

/-- Python's `str.rstrip(\x27s\x27)`: drop every trailing letter s. -/
def py_rstrip_s (s : String) : String :=
  String.mk ((s.toList.reverse.dropWhile (fun c => c = 's')).reverse)

/-- First value stored under a key of an association list (a Python dict
whose entries are kept in insertion order, latest binding first for caches). -/
def alistGet {β : Type} : List (String × β) → String → Option β
  | [], _ => none
  | (k, v) :: rest, key => if k = key then some v else alistGet rest key

/-- Digit characters to a natural number. -/
def digits_to_nat (ds : List Char) : Nat :=
  ds.foldl (fun n c => 10 * n + (c.toNat - 48)) 0

/-- Digit characters to a natural number, failing on empty or non-digit input. -/
def digits_to_nat_opt (ds : List Char) : Option Nat :=
  if ds ≠ [] ∧ ds.all Char.isDigit then some (digits_to_nat ds) else none

/-- Python's `int(str)` on a string: strips whitespace, allows one sign,
then requires a nonempty digit run; raises (here: `none`) otherwise. -/
def py_int (s : String) : Option Int :=
  match (py_strip s).toList with
  | '+' :: ds => (digits_to_nat_opt ds).map Int.ofNat
  | '-' :: ds => (digits_to_nat_opt ds).map (fun n => -(n : Int))
  | ds => (digits_to_nat_opt ds).map Int.ofNat

/-- Python's `float(str)` on the strings captured by the acreage pattern
`\d+\.?\d*`: integer part, optional dot, optional fractional digits. -/
def parse_decimal (cs : List Char) : ℚ :=
  let ip := cs.takeWhile (fun c => c ≠ '.')
  let rest := cs.drop ip.length
  match rest with
  | [] => (digits_to_nat ip : ℚ)
  | _ :: fp => (digits_to_nat ip : ℚ) + (digits_to_nat fp : ℚ) / ((10 : ℚ) ^ fp.length)

/-- Python's `int()` applied to a float: truncation toward zero. -/
def py_trunc (q : ℚ) : Int := Int.tdiv q.num (q.den : Int)

/-!  A tiny regex evaluator in continuation-passing style.  Each Python
pattern below is transcribed token by token; counted repetitions are greedy
with backtracking (longest first), alternations are tried left to right,
and a search tries start positions left to right — the semantics of
`re.search`. -/

/-- Backtracking driver for a counted repetition: `run ++ rest` is the
input, `run` the maximal prefix in the class; try taking `k` characters,
then `k-1`, ..., down to `lo`. -/
def repTryDesc {α : Type} (run rest : List Char) (lo : Nat)
    (cont : List Char → List Char → Option α) : Nat → Option α
  | 0 => if lo = 0 then cont [] (run ++ rest) else none
  | Nat.succ k =>
    if Nat.succ k < lo then none
    else
      match cont (run.take (k + 1)) (run.drop (k + 1) ++ rest) with
      | some a => some a
      | none => repTryDesc run rest lo cont k

/-- Greedy repetition `class{lo,hi}` of a character class, with backtracking
into the continuation. -/
def repClass {α : Type} (p : Char → Bool) (lo hi : Nat) (s : List Char)
    (cont : List Char → List Char → Option α) : Option α :=
  let run := s.takeWhile p
  repTryDesc run (s.drop run.length) lo cont (min run.length hi)

/-- Case-insensitive literal: consumes `lit` (given lowercase) from the
input, returning the rest. -/
def litCI : List Char → List Char → Option (List Char)
  | [], rest => some rest
  | _ :: _, [] => none
  | l :: ls, c :: cs => if c.toLower = l then litCI ls cs else none

/-- Alternation of case-insensitive literals, tried in order, with
backtracking into the continuation; the continuation receives the original
(not lowercased) matched text. -/
def altLits {α : Type} (lits : List (List Char)) (s : List Char)
    (cont : List Char → List Char → Option α) : Option α :=
  match lits with
  | [] => none
  | l :: ls =>
    match litCI l s with
    | some rest =>
      match cont (s.take l.length) rest with
      | some a => some a
      | none => altLits ls s cont
    | none => altLits ls s cont

/-- Optional literal character (`X?`), greedy: try consuming it first. -/
def optLit {α : Type} (x : Char) (s : List Char) (cont : List Char → Option α) : Option α :=
  match s with
  | c :: cs =>
    if c = x then
      match cont cs with
      | some a => some a
      | none => cont (c :: cs)
    else cont (c :: cs)
  | [] => cont []

/-- `re.search`: try the anchored matcher at every start position, leftmost
first (including the position at the end of the string). -/
def searchLoop {α : Type} (m : List Char → Option α) : List Char → Option α
  | [] => m []
  | c :: cs =>
    match m (c :: cs) with
    | some a => some a
    | none => searchLoop m cs

/-!  The four legal-description patterns of `PropertyParser.legal_patterns`,
tried in insertion order: quarter_section, lot_block, parcel, section.
Each anchored matcher returns the captured components as the association
list that `_parse_legal_description` builds from the match groups. -/

/-- Anchored matcher for
`([NSEW]{1,2})\s*(\d{1,2})\s*-\s*(\d{1,3})\s*-\s*(\d{1,3})\s*-\s*([WE])\s*(\d)`
(IGNORECASE). -/
def match_quarter_section_at (s : List Char) : Option (List (String × String)) :=
  repClass isNSEWChar 1 2 s (fun q s1 =>
  repClass isWSChar 0 s1.length s1 (fun _ s2 =>
  repClass isDigitChar 1 2 s2 (fun sec s3 =>
  repClass isWSChar 0 s3.length s3 (fun _ s4 =>
  match s4 with
  | '-' :: s5 =>
    repClass isWSChar 0 s5.length s5 (fun _ s6 =>
    repClass isDigitChar 1 3 s6 (fun twp s7 =>
    repClass isWSChar 0 s7.length s7 (fun _ s8 =>
    match s8 with
    | '-' :: s9 =>
      repClass isWSChar 0 s9.length s9 (fun _ s10 =>
      repClass isDigitChar 1 3 s10 (fun rng s11 =>
      repClass isWSChar 0 s11.length s11 (fun _ s12 =>
      match s12 with
      | '-' :: s13 =>
        repClass isWSChar 0 s13.length s13 (fun _ s14 =>
        match s14 with
        | md :: s15 =>
          if isWEChar md then
            repClass isWSChar 0 s15.length s15 (fun _ s16 =>
            match s16 with
            | d :: _ =>
              if isDigitChar d then
                some [("quarter", String.mk q), ("section", String.mk sec),
                      ("township", String.mk twp), ("range", String.mk rng),
                      ("meridian_direction", String.mk [md]),
                      ("meridian", String.mk [d])]
              else none
            | [] => none)
          else none
        | [] => none)
      | _ => none)))
    | _ => none)))
  | _ => none))))

/-- Anchored matcher for `LOT\s*(\d+)\s*,?\s*BLOCK\s*(\d+)\s*,?\s*PLAN\s*(\w+)`
(IGNORECASE). -/
def match_lot_block_at (s : List Char) : Option (List (String × String)) :=
  match litCI "lot".toList s with
  | none => none
  | some s1 =>
    repClass isWSChar 0 s1.length s1 (fun _ s2 =>
    repClass isDigitChar 1 s2.length s2 (fun lot s3 =>
    repClass isWSChar 0 s3.length s3 (fun _ s4 =>
    optLit ',' s4 (fun s5 =>
    repClass isWSChar 0 s5.length s5 (fun _ s6 =>
    match litCI "block".toList s6 with
    | none => none
    | some s7 =>
      repClass isWSChar 0 s7.length s7 (fun _ s8 =>
      repClass isDigitChar 1 s8.length s8 (fun blk s9 =>
      repClass isWSChar 0 s9.length s9 (fun _ s10 =>
      optLit ',' s10 (fun s11 =>
      repClass isWSChar 0 s11.length s11 (fun _ s12 =>
      match litCI "plan".toList s12 with
      | none => none
      | some s13 =>
        repClass isWSChar 0 s13.length s13 (fun _ s14 =>
        repClass isWordChar 1 s14.length s14 (fun pl _ =>
        some [("lot", String.mk lot), ("block", String.mk blk),
              ("plan", String.mk pl)]))))))))))))

/-- Anchored matcher for `PARCEL\s*(\w+)\s*,?\s*PLAN\s*(\w+)` (IGNORECASE). -/
def match_parcel_at (s : List Char) : Option (List (String × String)) :=
  match litCI "parcel".toList s with
  | none => none
  | some s1 =>
    repClass isWSChar 0 s1.length s1 (fun _ s2 =>
    repClass isWordChar 1 s2.length s2 (fun pcl s3 =>
    repClass isWSChar 0 s3.length s3 (fun _ s4 =>
    optLit ',' s4 (fun s5 =>
    repClass isWSChar 0 s5.length s5 (fun _ s6 =>
    match litCI "plan".toList s6 with
    | none => none
    | some s7 =>
      repClass isWSChar 0 s7.length s7 (fun _ s8 =>
      repClass isWordChar 1 s8.length s8 (fun pl _ =>
      some [("parcel", String.mk pcl), ("plan", String.mk pl)])))))))

/-- Anchored matcher for
`SECTION\s*(\d{1,2})\s*,?\s*TOWNSHIP\s*(\d{1,3})\s*,?\s*RANGE\s*(\d{1,3})\s*,?\s*([WE])\s*(\d)`
(IGNORECASE). -/
def match_section_at (s : List Char) : Option (List (String × String)) :=
  match litCI "section".toList s with
  | none => none
  | some s1 =>
    repClass isWSChar 0 s1.length s1 (fun _ s2 =>
    repClass isDigitChar 1 2 s2 (fun sec s3 =>
    repClass isWSChar 0 s3.length s3 (fun _ s4 =>
    optLit ',' s4 (fun s5 =>
    repClass isWSChar 0 s5.length s5 (fun _ s6 =>
    match litCI "township".toList s6 with
    | none => none
    | some s7 =>
      repClass isWSChar 0 s7.length s7 (fun _ s8 =>
      repClass isDigitChar 1 3 s8 (fun twp s9 =>
      repClass isWSChar 0 s9.length s9 (fun _ s10 =>
      optLit ',' s10 (fun s11 =>
      repClass isWSChar 0 s11.length s11 (fun _ s12 =>
      match litCI "range".toList s12 with
      | none => none
      | some s13 =>
        repClass isWSChar 0 s13.length s13 (fun _ s14 =>
        repClass isDigitChar 1 3 s14 (fun rng s15 =>
        repClass isWSChar 0 s15.length s15 (fun _ s16 =>
        optLit ',' s16 (fun s17 =>
        repClass isWSChar 0 s17.length s17 (fun _ s18 =>
        match s18 with
        | md :: s19 =>
          if isWEChar md then
            repClass isWSChar 0 s19.length s19 (fun _ s20 =>
            match s20 with
            | d :: _ =>
              if isDigitChar d then
                some [("section", String.mk sec), ("township", String.mk twp),
                      ("range", String.mk rng),
                      ("meridian_direction", String.mk [md]),
                      ("meridian", String.mk [d])]
              else none
            | [] => none)
          else none
        | [] => none)))))))))))))))

/-!  The three address patterns of `PropertyParser.address_patterns`. -/

/-- The suffix alternation of the street-address pattern, in source order. -/
def street_suffixes : List (List Char) :=
  ["street", "st", "avenue", "ave", "road", "rd", "drive", "dr", "lane", "ln",
   "boulevard", "blvd", "way", "circle", "cir", "court", "ct",
   "crescent", "cres"].map String.toList

/-- Anchored matcher for
`(\d+)\s+([A-Za-z0-9\s]+(?:Street|St|Avenue|Ave|Road|Rd|Drive|Dr|Lane|Ln|Boulevard|Blvd|Way|Circle|Cir|Court|Ct|Crescent|Cres))`
(IGNORECASE); returns (group 1, group 2). -/
def match_street_at (s : List Char) : Option (List Char × List Char) :=
  repClass isDigitChar 1 s.length s (fun num s1 =>
  repClass isWSChar 1 s1.length s1 (fun _ s2 =>
  repClass isStreetBodyChar 1 s2.length s2 (fun core s3 =>
  altLits street_suffixes s3 (fun suff _ =>
  some (num, core ++ suff)))))

/-- The road-type alternation of the rural-address pattern, in source order. -/
def rural_road_types : List (List Char) :=
  ["rr", "rural route", "range road", "township road", "highway", "hwy"].map
    String.toList

/-- Anchored matcher for `(RR|Rural Route|Range Road|Township Road|Highway|Hwy)\s*(\d+)`
(IGNORECASE); returns (group 1, group 2). -/
def match_rural_at (s : List Char) : Option (List Char × List Char) :=
  altLits rural_road_types s (fun rt s1 =>
  repClass isWSChar 0 s1.length s1 (fun _ s2 =>
  repClass isDigitChar 1 s2.length s2 (fun num _ =>
  some (rt, num))))

/-- Anchored matcher for the postal-code pattern `([A-Za-z]\d[A-Za-z]\s*\d[A-Za-z]\d)`;
returns the raw captured text including any inner whitespace. -/
def match_postal_at (s : List Char) : Option (List Char) :=
  match s with
  | a :: b :: c :: rest =>
    if a.isAlpha && b.isDigit && c.isAlpha then
      repClass isWSChar 0 rest.length rest (fun ws s1 =>
      match s1 with
      | d :: e :: f :: _ =>
        if d.isDigit && e.isAlpha && f.isDigit then
          some ([a, b, c] ++ ws ++ [d, e, f])
        else none
      | _ => none)
    else none
  | _ => none

/-- Anchored matcher for the acreage pattern `(\d+\.?\d*)\s*acres?`
(IGNORECASE); returns group 1. -/
def match_acre_tail (capBase : List Char) (s : List Char) : Option (List Char) :=
  repClass isDigitChar 0 s.length s (fun frac s2 =>
  repClass isWSChar 0 s2.length s2 (fun _ s3 =>
  match litCI "acre".toList s3 with
  | some _ => some (capBase ++ frac)
  | none => none))

/-- Acreage matcher, integer-digits part plus the optional dot (`\d+\.?\d*`). -/
def match_acre_at (s : List Char) : Option (List Char) :=
  repClass isDigitChar 1 s.length s (fun int1 s1 =>
  match s1 with
  | '.' :: s2 =>
    match match_acre_tail (int1 ++ ['.']) s2 with
    | some a => some a
    | none => match_acre_tail int1 ('.' :: s2)
  | _ => match_acre_tail int1 s1)

/-- `re.search` with the street-address pattern. -/
def search_street (s : List Char) : Option (List Char × List Char) :=
  searchLoop match_street_at s

/-- `re.search` with the rural-address pattern. -/
def search_rural (s : List Char) : Option (List Char × List Char) :=
  searchLoop match_rural_at s

/-- `re.search` with the postal-code pattern. -/
def search_postal (s : List Char) : Option (List Char) :=
  searchLoop match_postal_at s

/-- Postal-code normalization `match.group(1).upper().replace(' ', '')`. -/
def normalize_postal (cs : List Char) : String :=
  String.mk ((cs.map Char.toUpper).filter (fun c => c ≠ ' '))

/-!  Data model of `PropertyParser` results. -/

/-- Result of `_parse_address`: `{type, components, full_address}`. -/
structure ParsedAddress where
  type : String
  components : List (String × String)
  full_address : String
deriving DecidableEq

/-- Result of `_parse_legal_description`: `{type, components, full_description}`. -/
structure ParsedLegal where
  type : String
  components : List (String × String)
  full_description : String
deriving DecidableEq

/-- Geocoded coordinates `{latitude, longitude, display_name}`. -/
structure Coordinates where
  latitude : ℚ
  longitude : ℚ
  display_name : String
deriving DecidableEq

/-- The `property_details` dict: each key is present exactly when its
extractor found something, so the dict is empty iff the acreage is absent
and the three keyword buckets are empty. -/
structure PropertyDetails where
  acreage : Option ℚ
  zoning_hints : List String
  development_intentions : List String
  infrastructure_mentions : List String
deriving DecidableEq

/-- `len(details) == 0` for the embedded `property_details` dict. -/
def PropertyDetails.isEmptyDict (d : PropertyDetails) : Bool :=
  d.acreage.isNone && d.zoning_hints.isEmpty && d.development_intentions.isEmpty
    && d.infrastructure_mentions.isEmpty

/-- The dict built by `parse_property_info`. -/
structure PropertyInfo where
  raw_address : String
  raw_legal : String
  raw_additional : String
  parsed_address : Option ParsedAddress
  parsed_legal : Option ParsedLegal
  coordinates : Option Coordinates
  municipality_hints : List String
  property_details : PropertyDetails
deriving DecidableEq

/-- `PropertyParser._parse_address`: street pattern, then rural pattern
(each unconditionally overwriting type and components on a match), then the
postal code added to whatever component map resulted. -/
def parse_address (address : String) : ParsedAddress :=
  let s := address.toList
  let base : ParsedAddress := ⟨"unknown", [], py_strip address⟩
  let afterStreet :=
    match search_street s with
    | some (num, st) =>
      { base with type := "street",
                  components := [("number", String.mk num),
                                 ("street", py_strip (String.mk st))] }
    | none => base
  let afterRural :=
    match search_rural s with
    | some (rt, rn) =>
      { afterStreet with type := "rural",
                         components := [("road_type", String.mk rt),
                                        ("road_number", String.mk rn)] }
    | none => afterStreet
  match search_postal s with
  | some pc =>
    { afterRural with components :=
        afterRural.components ++ [("postal_code", normalize_postal pc)] }
  | none => afterRural

/-- `PropertyParser._parse_legal_description`: the four patterns in fixed
order, first successful pattern wins. -/
def parse_legal_description (legal_desc : String) : ParsedLegal :=
  let s := legal_desc.toList
  match searchLoop match_quarter_section_at s with
  | some comps => ⟨"quarter_section", comps, py_strip legal_desc⟩
  | none =>
    match searchLoop match_lot_block_at s with
    | some comps => ⟨"lot_block", comps, py_strip legal_desc⟩
    | none =>
      match searchLoop match_parcel_at s with
      | some comps => ⟨"parcel", comps, py_strip legal_desc⟩
      | none =>
        match searchLoop match_section_at s with
        | some comps => ⟨"section", comps, py_strip legal_desc⟩
        | none => ⟨"unknown", [], py_strip legal_desc⟩

/-- The static gazetteer of `_extract_municipality_hints` (municipalities). -/
def municipality_name_list : List String :=
  ["Red Deer", "Lacombe", "Ponoka", "Wetaskiwin", "Camrose", "Leduc",
   "Edmonton", "St. Albert", "Sherwood Park", "Fort Saskatchewan",
   "Morinville", "Legal", "Bon Accord", "Gibbons", "Redwater",
   "Smoky Lake", "Vilna", "Mundare", "Lamont", "Bruderheim",
   "Athabasca", "Boyle", "Westlock", "Barrhead", "Mayerthorpe",
   "Whitecourt", "Slave Lake", "High Prairie", "Valleyview"]

/-- The static gazetteer of `_extract_municipality_hints` (counties). -/
def county_name_list : List String :=
  ["Lacombe County", "Ponoka County", "Wetaskiwin County",
   "Camrose County", "Leduc County", "Strathcona County",
   "Sturgeon County", "Parkland County", "Lac Ste. Anne County",
   "Barrhead County", "Westlock County", "Athabasca County"]

/-- `PropertyParser._extract_municipality_hints`: case-insensitive substring
scan, hints in the static list's order. -/
def extract_municipality_hints (text : String) : List String :=
  (municipality_name_list ++ county_name_list).filter
    (fun loc => strIn (py_lower loc) (py_lower text))

/-- Keyword sets of `_extract_property_details`, in source order. -/
def zoning_keyword_list : List String :=
  ["commercial", "residential", "rural", "agricultural", "industrial"]

/-- Development-intention keywords of `_extract_property_details`. -/
def development_keyword_list : List String :=
  ["develop", "cottages", "subdivision", "building", "construction"]

/-- Infrastructure keywords of `_extract_property_details`. -/
def infrastructure_keyword_list : List String :=
  ["septic", "water", "power", "sewer", "gas", "internet"]

/-- `PropertyParser._extract_property_details`: first acreage match parsed
as a float, plus case-insensitive membership scans of the keyword sets. -/
def extract_property_details (additional_info : String) : PropertyDetails :=
  ⟨(searchLoop match_acre_at additional_info.toList).map parse_decimal,
   zoning_keyword_list.filter (fun k => strIn k (py_lower additional_info)),
   development_keyword_list.filter (fun k => strIn k (py_lower additional_info)),
   infrastructure_keyword_list.filter (fun k => strIn k (py_lower additional_info))⟩

/-- `PropertyParser._is_valid_property_info`: valid iff at least one of the
six identification signals is present. -/
def is_valid_property_info (p : PropertyInfo) : Bool :=
  let has_address := match p.parsed_address with
    | some pa => pa.type ≠ "unknown"
    | none => false
  let has_legal := match p.parsed_legal with
    | some pl => pl.type ≠ "unknown"
    | none => false
  let has_coordinates := p.coordinates.isSome
  let has_municipality_hints := !p.municipality_hints.isEmpty
  let has_property_details := !p.property_details.isEmptyDict
  let has_raw_input := p.raw_address ≠ "" || p.raw_legal ≠ "" || p.raw_additional ≠ ""
  has_address || has_legal || has_coordinates || has_municipality_hints
    || has_property_details || has_raw_input

/-- `PropertyParser.parse_property_info`.  The external geocoding call
(`_geocode_address`, a network request that silently degrades to no
coordinates on timeout or service error) is a parameter `geocode`; it is
invoked only when the address input is non-empty, as in the source. -/
def parse_property_info (geocode : String → Option Coordinates)
    (address legal_description additional_info : String) : Option PropertyInfo :=
  let parsed_address := if address = "" then none else some (parse_address address)
  let coordinates := if address = "" then none else geocode address
  let parsed_legal :=
    if legal_description = "" then none else some (parse_legal_description legal_description)
  let all_text := address ++ " " ++ legal_description ++ " " ++ additional_info
  let hints := extract_municipality_hints all_text
  let details :=
    if additional_info = "" then (⟨none, [], [], []⟩ : PropertyDetails)
    else extract_property_details additional_info
  let info : PropertyInfo :=
    ⟨address, legal_description, additional_info, parsed_address, parsed_legal,
     coordinates, hints, details⟩
  if is_valid_property_info info then some info else none

/-!  Data model of `MunicipalityLookup` (src/municipality_lookup.py). -/

/-- The `contact_info` sub-dict of a municipality record. -/
structure ContactInfo where
  phone : String
  address : String
deriving DecidableEq

/-- One static municipality record of `_load_municipalities_data`. -/
structure MunicipalityData where
  mtype : String
  population : Option Nat
  lat : ℚ
  lon : ℚ
  website : String
  planning_dept : String
  land_use_bylaw : String
  zoning_map : Option String
  contact_info : ContactInfo
deriving DecidableEq

/-- The two categories of the static table, entries in insertion order. -/
structure MuniTable where
  cities : List (String × MunicipalityData)
  counties : List (String × MunicipalityData)
deriving DecidableEq

/-- The Red Deer record of the embedded static dataset. -/
def red_deer_data : MunicipalityData :=
  ⟨"city", some 100844, mkRat 522681 10000, mkRat (-1138112) 10000, "https://www.reddeer.ca",
   "planning@reddeer.ca",
   "https://www.reddeer.ca/city-government/bylaws-and-policies/land-use-bylaw/",
   some "https://www.reddeer.ca/city-services/planning-and-development/zoning-maps/",
   ⟨"403-342-8111", "4914 48th Ave, Red Deer, AB T4N 3T4"⟩⟩

/-- The Edmonton record of the embedded static dataset. -/
def edmonton_data : MunicipalityData :=
  ⟨"city", some 1010899, mkRat 535461 10000, mkRat (-1134938) 10000, "https://www.edmonton.ca",
   "development@edmonton.ca",
   "https://www.edmonton.ca/city_government/bylaws/zoning-bylaw",
   some "https://maps.edmonton.ca/map.aspx?id=ZoningBylaw",
   ⟨"311", "1 Sir Winston Churchill Square, Edmonton, AB T5J 2R7"⟩⟩

/-- The Athabasca record of the embedded static dataset (stored under the
cities dict, with type town, as in the source). -/
def athabasca_data : MunicipalityData :=
  ⟨"town", some 2965, mkRat 547186 10000, mkRat (-1132856) 10000, "https://www.athabasca.ca",
   "cao@athabasca.ca", "https://www.athabasca.ca/government/bylaws/", none,
   ⟨"780-675-2273", "4904 50 St, Athabasca, AB T9S 1E2"⟩⟩

/-- The embedded static dataset of `_load_municipalities_data`. -/
def municipalities_data : MuniTable :=
  ⟨[("Red Deer", red_deer_data),
    ("Edmonton", edmonton_data),
    ("Lacombe",
     ⟨"city", some 13057, mkRat 524675 10000, mkRat (-1137364) 10000, "https://www.lacombe.ca",
      "planning@lacombe.ca", "https://www.lacombe.ca/government/bylaws/", none,
      ⟨"403-782-6666", "5432 56 Ave, Lacombe, AB T4L 1E9"⟩⟩),
    ("Wetaskiwin",
     ⟨"city", some 12655, mkRat 529692 10000, mkRat (-1133747) 10000, "https://www.wetaskiwin.ca",
      "planning@wetaskiwin.ca",
      "https://www.wetaskiwin.ca/government/bylaws-policies/", none,
      ⟨"780-361-4400", "4905 50 Ave, Wetaskiwin, AB T9A 0S7"⟩⟩),
    ("Camrose",
     ⟨"city", some 18742, mkRat 530167 10000, mkRat (-1128333) 10000, "https://www.camrose.ca",
      "planning@camrose.ca", "https://www.camrose.ca/government/bylaws/", none,
      ⟨"780-672-4428", "4703 50 Ave, Camrose, AB T4V 0P7"⟩⟩),
    ("Athabasca", athabasca_data)],
   [("Lacombe County",
     ⟨"county", none, mkRat 524000 10000, mkRat (-1138000) 10000, "https://www.lacombecounty.com",
      "planning@lacombecounty.com",
      "https://www.lacombecounty.com/government/bylaws/", none,
      ⟨"403-782-8060", "4611 52 Ave, Lacombe, AB T4L 1G3"⟩⟩),
    ("Ponoka County",
     ⟨"county", none, mkRat 526833 10000, mkRat (-1135833) 10000, "https://www.ponokacounty.com",
      "planning@ponokacounty.com",
      "https://www.ponokacounty.com/government/bylaws/", none,
      ⟨"403-783-3333", "5506 57 Ave, Ponoka, AB T4J 1A1"⟩⟩),
    ("Wetaskiwin County",
     ⟨"county", none, mkRat 530000 10000, mkRat (-1135000) 10000, "https://www.county.wetaskiwin.ab.ca",
      "planning@county.wetaskiwin.ab.ca",
      "https://www.county.wetaskiwin.ab.ca/government/bylaws/", none,
      ⟨"780-352-3321",
       "Multi-Municipal Building, 4905 51 Ave, Wetaskiwin, AB T9A 1P2"⟩⟩),
    ("Camrose County",
     ⟨"county", none, mkRat 530000 10000, mkRat (-1125000) 10000, "https://www.camrosecounty.ab.ca",
      "planning@camrosecounty.ab.ca",
      "https://www.camrosecounty.ab.ca/government/bylaws/", none,
      ⟨"780-672-4446", "#10, 3755 43 Ave, Camrose, AB T4V 3S8"⟩⟩),
    ("Leduc County",
     ⟨"county", none, mkRat 532667 10000, mkRat (-1135500) 10000, "https://www.leduc-county.com",
      "planning@leduc-county.com",
      "https://www.leduc-county.com/government/bylaws/", none,
      ⟨"780-955-3555", "1101 5 St, Nisku, AB T9E 2X3"⟩⟩),
    ("Strathcona County",
     ⟨"county", none, mkRat 535167 10000, mkRat (-1132000) 10000, "https://www.strathcona.ca",
      "planning@strathcona.ca",
      "https://www.strathcona.ca/council-county/bylaws/", none,
      ⟨"780-464-8111", "2001 Sherwood Dr, Sherwood Park, AB T8A 3W7"⟩⟩),
    ("Sturgeon County",
     ⟨"county", none, mkRat 538000 10000, mkRat (-1136000) 10000, "https://www.sturgeoncounty.ca",
      "planning@sturgeoncounty.ca",
      "https://www.sturgeoncounty.ca/government/bylaws/", none,
      ⟨"780-939-4321", "9613 100 St, Morinville, AB T8R 1L9"⟩⟩),
    ("Parkland County",
     ⟨"county", none, mkRat 537000 10000, mkRat (-1140000) 10000, "https://www.parklandcounty.com",
      "planning@parklandcounty.com",
      "https://www.parklandcounty.com/government/bylaws/", none,
      ⟨"780-968-8888", "53109A Hwy 779, Parkland County, AB T7Z 1R1"⟩⟩),
    ("Athabasca County",
     ⟨"county", none, mkRat 545000 10000, mkRat (-1130000) 10000, "https://www.athabascacounty.com",
      "planning@athabascacounty.com",
      "https://www.athabascacounty.com/government/bylaws/", none,
      ⟨"780-675-2273", "4904 50 St, Athabasca, AB T9S 1E2"⟩⟩)]⟩

/-- A found-municipality record: a copy of the stored data plus the `name`
and `category` keys the finders add (and `distance_km` for the coordinate
finder). -/
structure MuniResult where
  data : MunicipalityData
  name : String
  category : String
  distance_km : Option ℚ := none
deriving DecidableEq

/-- One category scan of `_find_by_name`: case-insensitive exact-or-substring
match (the stored name as a substring of the lowercased query). -/
def find_name_in (entries : List (String × MunicipalityData)) (nl cat : String) :
    Option MuniResult :=
  match entries with
  | [] => none
  | (n, d) :: rest =>
    if py_lower n = nl || strIn (py_lower n) nl then some ⟨d, n, cat, none⟩
    else find_name_in rest nl cat

/-- `MunicipalityLookup._find_by_name`: cities checked before counties. -/
def find_by_name_t (t : MuniTable) (name : String) : Option MuniResult :=
  let nl := py_lower name
  match find_name_in t.cities nl "city" with
  | some r => some r
  | none => find_name_in t.counties nl "county"

/-- Iteration order of `_find_by_coordinates`: the cities dict then the
counties dict, each entry tagged with its category dict's name. -/
def coord_entry_list (t : MuniTable) : List (String × String × MunicipalityData) :=
  t.cities.map (fun e => ("cities", e.1, e.2))
    ++ t.counties.map (fun e => ("counties", e.1, e.2))

/-- One iteration of `_find_by_coordinates`: keep the entry when its
distance is strictly below 50 km and strictly below the current minimum
(`float('inf')` when nothing is kept yet).  The geodesic distance
computation (geopy, an external library) is the parameter `dist`, applied
to (query point, municipality reference point). -/
def coord_step (dist : ℚ × ℚ → ℚ × ℚ → ℚ) (lat lon : ℚ)
    (e : String × String × MunicipalityData) (best : Option (MuniResult × ℚ)) :
    Option (MuniResult × ℚ) :=
  let d := dist (lat, lon) (e.2.2.lat, e.2.2.lon)
  if decide (d < 50) && best.all (fun b => decide (d < b.2)) then
    some (⟨e.2.2, e.2.1, py_rstrip_s e.1, some d⟩, d)
  else best

/-- The accumulator loop of `_find_by_coordinates`. -/
def coord_loop (dist : ℚ × ℚ → ℚ × ℚ → ℚ) (lat lon : ℚ) :
    List (String × String × MunicipalityData) → Option (MuniResult × ℚ) →
      Option (MuniResult × ℚ)
  | [], best => best
  | e :: es, best => coord_loop dist lat lon es (coord_step dist lat lon e best)

/-- `MunicipalityLookup._find_by_coordinates`. -/
def find_by_coordinates_t (t : MuniTable) (dist : ℚ × ℚ → ℚ × ℚ → ℚ)
    (lat lon : ℚ) : Option MuniResult :=
  (coord_loop dist lat lon (coord_entry_list t) none).map Prod.fst

/-- The first township/range band of `_find_by_legal_description` (Red Deer). -/
def red_deer_band (tv rv : Int) : Bool :=
  decide (40 ≤ tv) && decide (tv ≤ 50) && decide (20 ≤ rv) && decide (rv ≤ 30)

/-- The second township/range band of `_find_by_legal_description` (Edmonton). -/
def edmonton_band (tv rv : Int) : Bool :=
  decide (50 ≤ tv) && decide (tv ≤ 60) && decide (20 ≤ rv) && decide (rv ≤ 30)

/-- The third township/range band of `_find_by_legal_description` (Athabasca). -/
def athabasca_band (tv rv : Int) : Bool :=
  decide (60 ≤ tv) && decide (tv ≤ 70) && decide (20 ≤ rv) && decide (rv ≤ 30)

/-- `MunicipalityLookup._find_by_legal_description`: only for typed
quarter_section/section records; township and range must be truthy strings
that `int()` accepts; the three bands are tried in if/elif order. -/
def find_by_legal_description_t (t : MuniTable) (ld : ParsedLegal) : Option MuniResult :=
  if ld.type = "quarter_section" ∨ ld.type = "section" then
    match alistGet ld.components "township", alistGet ld.components "range" with
    | some ts, some rs =>
      if ts ≠ "" ∧ rs ≠ "" then
        match py_int ts, py_int rs with
        | some tv, some rv =>
          if red_deer_band tv rv then find_by_name_t t "Red Deer"
          else if edmonton_band tv rv then find_by_name_t t "Edmonton"
          else if athabasca_band tv rv then find_by_name_t t "Athabasca"
          else none
        | _, _ => none
      else none
    | _, _ => none
  else none

/-- Condition of `_extract_location_hints` for keeping a word: capitalized
first character and length above 3. -/
def loc_hint_cond (w : List Char) : Bool :=
  match w with
  | c :: _ => c.isUpper && decide (w.length > 3)
  | [] => false

/-- Whether the next word starts with an uppercase character. -/
def starts_upper (w : List Char) : Bool :=
  match w with
  | c :: _ => c.isUpper
  | [] => false

/-- Python's `str.split()`: split on whitespace runs, no empty words. -/
def py_split_aux : List Char → List Char → List (List Char)
  | [], acc => if acc = [] then [] else [acc.reverse]
  | c :: cs, acc =>
    if isWSChar c then
      if acc = [] then py_split_aux cs [] else acc.reverse :: py_split_aux cs []
    else py_split_aux cs (c :: acc)

/-- Python's `str.split()` on a string. -/
def py_split (s : String) : List (List Char) := py_split_aux s.toList []

/-- The scan of `_extract_location_hints`: each qualifying word, followed by
the two-word combination when the next word is also capitalized. -/
def loc_hints_scan : List (List Char) → List String
  | [] => []
  | w :: rest =>
    let tail := loc_hints_scan rest
    if loc_hint_cond w then
      match rest with
      | w2 :: _ =>
        String.mk w ::
          (if starts_upper w2 then [String.mk w ++ " " ++ String.mk w2] else []) ++ tail
      | [] => String.mk w :: tail
    else tail

/-- `MunicipalityLookup._extract_location_hints`. -/
def extract_location_hints (text : String) : List String :=
  loc_hints_scan (py_split text)

/-- The hint loop shared by strategy 1 and strategy 4: first name match wins. -/
def find_hints_loop (t : MuniTable) : List String → Option MuniResult
  | [] => none
  | h :: hs =>
    match find_by_name_t t h with
    | some m => some m
    | none => find_hints_loop t hs

/-- `MunicipalityLookup._find_by_address_components`. -/
def find_by_address_components_t (t : MuniTable) (pa : ParsedAddress) :
    Option MuniResult :=
  find_hints_loop t (extract_location_hints pa.full_address)

/-- The slice of a parsed property record that `find_municipality` reads. -/
structure ResolveInput where
  municipality_hints : List String
  coordinates : Option (ℚ × ℚ)
  parsed_legal : Option ParsedLegal
  parsed_address : Option ParsedAddress
deriving DecidableEq

/-- `MunicipalityLookup.find_municipality`: the four strategies in fixed
priority order, stopping at the first non-null result. -/
def find_municipality_t (dist : ℚ × ℚ → ℚ × ℚ → ℚ) (t : MuniTable)
    (pi : ResolveInput) : Option MuniResult :=
  match find_hints_loop t pi.municipality_hints with
  | some m => some m
  | none =>
    match (match pi.coordinates with
           | some c => find_by_coordinates_t t dist c.1 c.2
           | none => none) with
    | some m => some m
    | none =>
      match (match pi.parsed_legal with
             | some ld =>
               if ld.type = "unknown" then none else find_by_legal_description_t t ld
             | none => none) with
      | some m => some m
      | none =>
        match pi.parsed_address with
        | some pa => find_by_address_components_t t pa
        | none => none

/-- Stable insertion into a by-name sorted list (Python's stable `sorted`
with the name key; the table's names are pairwise distinct, so any stable
sort produces this result). -/
def insert_by_name (m : MuniResult) : List MuniResult → List MuniResult
  | [] => [m]
  | x :: xs =>
    if decide (m.name ≤ x.name) then m :: x :: xs else x :: insert_by_name m xs

/-- `MunicipalityLookup.get_supported_municipalities`: all records copied,
tagged, and sorted by name. -/
def get_supported_municipalities_t (t : MuniTable) : List MuniResult :=
  ((coord_entry_list t).map
      (fun e => (⟨e.2.2, e.2.1, py_rstrip_s e.1, none⟩ : MuniResult))).foldr
    insert_by_name []

/-- The record returned by `get_municipality_details`: the found copy with
the two extra keys the method adds to it. -/
structure MunicipalityDetails where
  base : MuniResult
  supported_services : List String
  typical_processing_times : List (String × String)
deriving DecidableEq

/-- `MunicipalityLookup.get_municipality_details`. -/
def get_municipality_details_t (t : MuniTable) (name : String) :
    Option MunicipalityDetails :=
  (find_by_name_t t name).map (fun m =>
    ⟨m,
     ["Land Use Bylaw Information", "Zoning Maps", "Development Permits",
      "Subdivision Applications", "Planning Consultation"],
     [("development_permit", "4-6 weeks"), ("subdivision", "3-6 months"),
      ("rezoning", "6-12 months")]⟩)

/-!  Top-level resolver operations over the table loaded at construction. -/

/-- `find_by_name` on the static table. -/
def find_by_name (name : String) : Option MuniResult :=
  find_by_name_t municipalities_data name

/-- `find_by_coordinates` on the static table. -/
def find_by_coordinates (dist : ℚ × ℚ → ℚ × ℚ → ℚ) (lat lon : ℚ) :
    Option MuniResult :=
  find_by_coordinates_t municipalities_data dist lat lon

/-- `find_by_legal_description` on the static table. -/
def find_by_legal_description (ld : ParsedLegal) : Option MuniResult :=
  find_by_legal_description_t municipalities_data ld

/-- `find_municipality` on the static table. -/
def find_municipality (dist : ℚ × ℚ → ℚ × ℚ → ℚ) (pi : ResolveInput) :
    Option MuniResult :=
  find_municipality_t dist municipalities_data pi

/-!  State-passing view of `MunicipalityLookup`: the object's only state is
`self.municipalities_data`, set in `__init__`; every method only reads it
(the records it hands out are `.copy()`s, so the methods mutate copies, not
the stored records), which the state-threaded forms below make explicit. -/

/-- Object state of `MunicipalityLookup`. -/
structure LookupState where
  municipalities_data : MuniTable
deriving DecidableEq

/-- `find_municipality` as a state transformer. -/
def find_municipality_st (dist : ℚ × ℚ → ℚ × ℚ → ℚ) (pi : ResolveInput)
    (s : LookupState) : Option MuniResult × LookupState :=
  (find_municipality_t dist s.municipalities_data pi, s)

/-- `_find_by_name` as a state transformer. -/
def find_by_name_st (name : String) (s : LookupState) :
    Option MuniResult × LookupState :=
  (find_by_name_t s.municipalities_data name, s)

/-- `_find_by_coordinates` as a state transformer. -/
def find_by_coordinates_st (dist : ℚ × ℚ → ℚ × ℚ → ℚ) (lat lon : ℚ)
    (s : LookupState) : Option MuniResult × LookupState :=
  (find_by_coordinates_t s.municipalities_data dist lat lon, s)

/-- `get_supported_municipalities` as a state transformer. -/
def get_supported_municipalities_st (s : LookupState) :
    List MuniResult × LookupState :=
  (get_supported_municipalities_t s.municipalities_data, s)

/-- `get_municipality_details` as a state transformer. -/
def get_municipality_details_st (name : String) (s : LookupState) :
    Option MunicipalityDetails × LookupState :=
  (get_municipality_details_t s.municipalities_data name, s)

/-!  Embedding of `PolicyRetrieval` (src/policy_retrieval.py). -/

/-- `PolicyRetrieval._get_typical_setbacks`: ordered if/elif substring chain
with an explicit default branch. -/
def get_typical_setbacks (zoning : String) : List (String × String) :=
  if strIn "R1" zoning || strIn "Single Family" zoning then
    [("front", "7.5 meters"), ("rear", "7.5 meters"), ("side", "1.5 meters")]
  else if strIn "RC" zoning || strIn "Rural Commercial" zoning then
    [("front", "15 meters"), ("rear", "15 meters"), ("side", "7.5 meters")]
  else if strIn "RUR" zoning || strIn "Rural" zoning then
    [("front", "30 meters"), ("rear", "15 meters"), ("side", "15 meters")]
  else
    [("front", "6 meters"), ("rear", "6 meters"), ("side", "3 meters")]

/-- `PolicyRetrieval._get_density_restrictions`: ordered if/elif substring
chain; NOTE the source has no default branch, so the initial empty dict is
returned when no branch matches. -/
def get_density_restrictions (zoning : String) : List (String × String) :=
  if strIn "RC" zoning || strIn "Rural Commercial" zoning then
    [("maximum_site_coverage", "40%"), ("maximum_floor_area_ratio", "0.5"),
     ("minimum_lot_size", "2 hectares")]
  else if strIn "RUR" zoning || strIn "Rural" zoning then
    [("maximum_site_coverage", "25%"), ("minimum_lot_size", "2 hectares"),
     ("maximum_dwelling_units", "1 per lot")]
  else if strIn "R1" zoning then
    [("maximum_site_coverage", "35%"), ("minimum_lot_size", "600 square meters"),
     ("maximum_dwelling_units", "1 per lot")]
  else []

/-- `PolicyRetrieval._get_height_restrictions`: ordered if/elif substring
chain with an explicit default branch. -/
def get_height_restrictions (zoning : String) : List (String × String) :=
  if strIn "RC" zoning || strIn "Commercial" zoning then
    [("maximum_height", "12 meters"), ("maximum_stories", "3")]
  else if strIn "RUR" zoning || strIn "Rural" zoning then
    [("maximum_height", "10 meters"), ("maximum_stories", "2.5")]
  else
    [("maximum_height", "9 meters"), ("maximum_stories", "2.5")]

/-- The `cottage_potential` sub-dict of the cottage development analysis. -/
structure CottagePotential where
  total_acreage : ℚ
  developable_acreage : ℚ
  estimated_cottage_units : Int
  phased_development : Bool
  recommended_phase_1 : Int
deriving DecidableEq

/-- Result of `get_cottage_development_analysis`. -/
structure CottageAnalysis where
  feasibility : String
  cottage_potential : Option CottagePotential
  regulatory_considerations : List String
  next_steps : List String
deriving DecidableEq

/-- The fixed `next_steps` list appended to every cottage analysis. -/
def cottage_next_steps : List String :=
  ["Schedule pre-application meeting with planning department",
   "Obtain detailed zoning map and bylaw review",
   "Conduct environmental site assessment",
   "Verify utility capacity and availability",
   "Consult with development engineer",
   "Prepare preliminary site plan"]

/-- `PolicyRetrieval.get_cottage_development_analysis`.  Inputs are the
policy record's zoning string (`policy_info.get('zoning', '')`), its
density-restrictions dict and the property's acreage
(`property_details.get('acreage', 0)`). -/
def get_cottage_development_analysis (zoning : String)
    (density_restrictions : List (String × String)) (acreage : ℚ) :
    CottageAnalysis :=
  if strIn "Rural Commercial" zoning || strIn "RC" zoning then
    let potential : Option CottagePotential :=
      if 14 ≤ acreage then
        let max_coverage := (alistGet density_restrictions "maximum_site_coverage").getD "40%"
        if strIn "40%" max_coverage then
          let developable_area := acreage * 0.4
          let potential_cottages := py_trunc (developable_area * 4.5)
          some ⟨acreage, developable_area, potential_cottages, true,
                min 5 potential_cottages⟩
        else none
      else none
    ⟨"High", potential,
     ["Tourist accommodation is typically permitted use",
      "Development permit required for each phase",
      "Site plan approval needed",
      "Septic system capacity assessment required",
      "Water supply adequacy verification needed",
      "Fire access and safety plan required"],
     cottage_next_steps⟩
  else if strIn "Rural" zoning then
    ⟨"Moderate", none,
     ["May require rezoning to Rural Commercial",
      "Discretionary use application may be possible",
      "Bed and breakfast operations typically allowed",
      "Small scale tourism may be permitted"],
     cottage_next_steps⟩
  else
    ⟨"Low", none,
     ["Rezoning likely required",
      "Commercial use not typically permitted",
      "Significant regulatory hurdles expected"],
     cottage_next_steps⟩

/-!  The memo cache of `get_land_use_policies`.  The body of its `try`
block (the `_get_zoning_information`, `_get_bylaw_information` and
`_get_development_requirements` calls together with the updates they apply
to the fresh `policy_info` dict) is abstracted as one fallible computation
of type `Except String PolicyUpdates`, since a Python exception anywhere in
the block is what routes control to the `except` branch. -/

/-- The updates the try block applies when it completes. -/
structure PolicyUpdates where
  zoning : Option String
  permitted_uses : List String
  discretionary_uses : List String
  setbacks : List (String × String)
  density_restrictions : List (String × String)
  height_restrictions : List (String × String)
  land_use_bylaw : Option String
  development_requirements : List String
deriving DecidableEq

/-- The policy record assembled by `get_land_use_policies`. -/
structure PolicyInfo where
  municipality : String
  zoning : Option String
  land_use_bylaw : Option String
  permitted_uses : List String
  discretionary_uses : List String
  setbacks : List (String × String)
  density_restrictions : List (String × String)
  height_restrictions : List (String × String)
  special_provisions : List String
  development_requirements : List String
  contact_info : ContactInfo
  bylaw_links : List String
  last_updated : String
  error : Option String
deriving DecidableEq

/-- The fresh `policy_info` dict (lines 74-88 of the source); `now` stands
for `time.strftime(...)`. -/
def base_policy_info (mname : String) (contact : ContactInfo) (now : String) :
    PolicyInfo :=
  ⟨mname, none, none, [], [], [], [], [], [], [], contact, [], now, none⟩

/-- Applying the try block's updates to the fresh record. -/
def apply_policy_updates (p : PolicyInfo) (u : PolicyUpdates) : PolicyInfo :=
  { p with zoning := u.zoning,
           permitted_uses := u.permitted_uses,
           discretionary_uses := u.discretionary_uses,
           setbacks := u.setbacks,
           density_restrictions := u.density_restrictions,
           height_restrictions := u.height_restrictions,
           land_use_bylaw := u.land_use_bylaw,
           development_requirements := u.development_requirements }

/-- The cache key `f"{municipality_name}_{hash(str(property_info))}"`; the
`hash(str(...))` value is the abstract integer `hv`. -/
def policy_cache_key (mname : String) (hv : Int) : String :=
  mname ++ "_" ++ toString hv

/-- Object state of `PolicyRetrieval`: the process-wide policy cache, a dict
embedded as an association list with the latest binding first. -/
structure PolicyState where
  policy_cache : List (String × PolicyInfo)
deriving DecidableEq

/-- `PolicyRetrieval.get_land_use_policies`: cache hit returns the stored
record unchanged; otherwise the try body runs, and only a completed body
writes the cache — an exception sets the `error` field on the returned
record and leaves the cache untouched. -/
def get_land_use_policies (body : Except String PolicyUpdates) (mname : String)
    (hv : Int) (contact : ContactInfo) (now : String) (s : PolicyState) :
    PolicyInfo × PolicyState :=
  let key := policy_cache_key mname hv
  match alistGet s.policy_cache key with
  | some cached => (cached, s)
  | none =>
    let p := base_policy_info mname contact now
    match body with
    | Except.ok u =>
      let p2 := apply_policy_updates p u
      (p2, ⟨(key, p2) :: s.policy_cache⟩)
    | Except.error e =>
      ({ p with error := some ("Error retrieving policy information: " ++ e) }, s)

/-!  Expected result records used in the theorems below. -/

/-- The record `_find_by_name` returns for Red Deer. -/
def red_deer_name_result : MuniResult := ⟨red_deer_data, "Red Deer", "city", none⟩

/-- The record `_find_by_name` returns for Edmonton. -/
def edmonton_name_result : MuniResult := ⟨edmonton_data, "Edmonton", "city", none⟩

/-- The record `_find_by_name` returns for Athabasca. -/
def athabasca_name_result : MuniResult := ⟨athabasca_data, "Athabasca", "city", none⟩

/-- C1 — `find_municipality` applies its strategies in fixed priority order
and stops at the first non-null result: whenever the name-hint loop
(strategy 1) succeeds with municipality `m`, the resolver returns `m`, even
when the record carries geocoded coordinates under which the coordinate
strategy would return a different municipality `m2`. -/
theorem find_municipality_name_hint_precedence
    (dist : ℚ × ℚ → ℚ × ℚ → ℚ) (pi : ResolveInput) (m m2 : MuniResult) (c : ℚ × ℚ)
    (hname : find_hints_loop municipalities_data pi.municipality_hints = some m)
    (_hcoords : pi.coordinates = some c)
    (_hnear : find_by_coordinates dist c.1 c.2 = some m2)
    (_hdiff : m2.name ≠ m.name) :
    find_municipality dist pi = some m := by
  unfold find_municipality find_municipality_t
  rw [hname]

/-- A distance function under which only Edmonton's reference point is
within 50 km of the query. -/
def c1_dist : ℚ × ℚ → ℚ × ℚ → ℚ :=
  fun _ q => if q.1 = mkRat 535461 10000 then 5 else 60

/-- A property record with a Red Deer name hint and coordinates near
Edmonton. -/
def c1_record : ResolveInput :=
  ⟨["Red Deer"], some (mkRat 535461 10000, mkRat (-1134938) 10000), none, none⟩

/-- The record the coordinate strategy would return for `c1_record`. -/
def edmonton_near_result : MuniResult := ⟨edmonton_data, "Edmonton", "citie", some 5⟩

/-- Witness for C1: a record whose hint names Red Deer but whose coordinates
sit on Edmonton resolves to Red Deer. -/
theorem find_municipality_name_hint_precedence_witness :
    find_municipality c1_dist c1_record = some red_deer_name_result :=
  find_municipality_name_hint_precedence c1_dist c1_record red_deer_name_result
    edmonton_near_result (mkRat 535461 10000, mkRat (-1134938) 10000) (by decide) rfl (by decide) (by decide)

/-- C2 — `"SW 14-45-25-W4"` parses as a quarter_section with the stated
components, and a record carrying only this parsed legal description
resolves to the Red Deer record through the legal-description heuristic
(township 45 in the 40-50 band, range 25 in the 20-30 band). -/
theorem quarter_section_sw_14_45_25_w4_resolves_red_deer :
    parse_legal_description "SW 14-45-25-W4" =
      ⟨"quarter_section",
       [("quarter", "SW"), ("section", "14"), ("township", "45"),
        ("range", "25"), ("meridian_direction", "W"), ("meridian", "4")],
       "SW 14-45-25-W4"⟩
    ∧ ∀ dist, find_municipality dist
        ⟨[], none, some (parse_legal_description "SW 14-45-25-W4"), none⟩ =
        some red_deer_name_result :=
  ⟨by decide, fun dist => by rfl⟩

/-- C3 — an input triple with no parsable signal (empty raw text, hence no
typed address or legal description, no geocoded coordinates, no hints, no
details) makes `parse_property_info` return failure, not a partially
populated record. -/
theorem parse_property_info_no_signal_returns_none
    (geocode : String → Option Coordinates)
    (address legal_description additional_info : String)
    (ha : address = "") (hl : legal_description = "") (hi : additional_info = "")
    (hg : geocode address = none)
    (hh : extract_municipality_hints
        (address ++ " " ++ legal_description ++ " " ++ additional_info) = []) :
    parse_property_info geocode address legal_description additional_info = none := by
  subst ha hl hi
  rfl

/-- Witness for C3: the all-empty input triple parses to failure. -/
theorem parse_property_info_no_signal_witness :
    parse_property_info (fun _ => none) "" "" "" = none :=
  parse_property_info_no_signal_returns_none (fun _ => none) "" "" "" rfl rfl rfl
    rfl (by decide)

/-- C8 — with acreage 14.55, a zoning containing Rural Commercial and the
density table carrying maximum_site_coverage 40%, the cottage analysis
computes developable area 5.82, 26 estimated units, a phase-1
recommendation of 5, and High feasibility. -/
theorem cottage_analysis_at_14_55_acres :
    (get_cottage_development_analysis "RC - Rural Commercial"
        (get_density_restrictions "RC - Rural Commercial") (14.55 : ℚ)).feasibility
      = "High"
    ∧ (get_cottage_development_analysis "RC - Rural Commercial"
        (get_density_restrictions "RC - Rural Commercial") (14.55 : ℚ)).cottage_potential
      = some ⟨14.55, 5.82, 26, true, 5⟩ := by
  have hz : (strIn "Rural Commercial" "RC - Rural Commercial"
      || strIn "RC" "RC - Rural Commercial") = true := by decide
  have hle : ((14 : ℚ) ≤ 14.55) := by norm_num
  have hmc : (alistGet (get_density_restrictions "RC - Rural Commercial")
      "maximum_site_coverage").getD "40%" = "40%" := by decide
  have h40 : strIn "40%" "40%" = true := by decide
  have hmul1 : (14.55 : ℚ) * 0.4 = 5.82 := by norm_num
  have h2 : (5.82 : ℚ) * 4.5 = mkRat 2619 100 := by norm_num [mkRat, Rat.normalize]
  have htr : py_trunc ((5.82 : ℚ) * 4.5) = 26 := by rw [h2]; decide
  simp only [get_cottage_development_analysis, hz, if_true, if_pos hle, hmc, h40,
    hmul1, htr]
  exact ⟨trivial, by norm_num⟩

/-- C9 — the static municipality table is never mutated: every resolver
operation leaves the state loaded at construction unchanged (each returned
record is a fresh value built from a copy of the stored one). -/
theorem municipalities_data_never_mutated (s : LookupState)
    (dist : ℚ × ℚ → ℚ × ℚ → ℚ) (pi : ResolveInput) (name1 name2 : String)
    (lat lon : ℚ) :
    (find_municipality_st dist pi s).2 = s
    ∧ (find_by_name_st name1 s).2 = s
    ∧ (find_by_coordinates_st dist lat lon s).2 = s
    ∧ (get_supported_municipalities_st s).2 = s
    ∧ (get_municipality_details_st name2 s).2 = s :=
  ⟨rfl, rfl, rfl, rfl, rfl⟩

/-!  Claim C4: the legal-description strategy. -/

/-- Evaluation of `_find_by_name` at the literal Red Deer. -/
theorem find_by_name_red_deer_eval :
    find_by_name_t municipalities_data "Red Deer" = some red_deer_name_result := by
  decide

/-- Evaluation of `_find_by_name` at the literal Edmonton. -/
theorem find_by_name_edmonton_eval :
    find_by_name_t municipalities_data "Edmonton" = some edmonton_name_result := by
  decide

/-- Evaluation of `_find_by_name` at the literal Athabasca. -/
theorem find_by_name_athabasca_eval :
    find_by_name_t municipalities_data "Athabasca" = some athabasca_name_result := by
  decide

/-- C4 (counterexample) — the three township/range bands of the source are
not pairwise disjoint: township 50 with range 25 lies in both the Red Deer
band and the Edmonton band, and the if/elif order sends it to Red Deer. -/
theorem legal_bands_overlap_at_township_50 :
    red_deer_band 50 25 = true ∧ edmonton_band 50 25 = true
    ∧ find_by_legal_description
        ⟨"quarter_section",
         [("quarter", "SW"), ("section", "14"), ("township", "50"),
          ("range", "25"), ("meridian_direction", "W"), ("meridian", "4")],
         "SW 14-50-25-W4"⟩ = some red_deer_name_result := by
  refine ⟨by decide, by decide, ?_⟩
  decide

/-- C4 (amended) — the legal-description strategy succeeds exactly when the
parsed record is typed quarter_section or section, its township and range
components are truthy strings accepted by `int()`, the range lies in 20-30,
and the township lies in 40-70; the bands overlap at townships 50 and 60,
where the earlier if/elif branch wins, so the effective partition is
Red Deer 40-50, Edmonton 51-60, Athabasca 61-70. -/
theorem find_by_legal_description_characterization (ld : ParsedLegal) (r : MuniResult) :
    find_by_legal_description ld = some r ↔
      (ld.type = "quarter_section" ∨ ld.type = "section") ∧
      ∃ ts rs tv rv,
        alistGet ld.components "township" = some ts ∧
        alistGet ld.components "range" = some rs ∧
        ts ≠ "" ∧ rs ≠ "" ∧
        py_int ts = some tv ∧ py_int rs = some rv ∧
        20 ≤ rv ∧ rv ≤ 30 ∧
        ((40 ≤ tv ∧ tv ≤ 50 ∧ r = red_deer_name_result) ∨
         (50 < tv ∧ tv ≤ 60 ∧ r = edmonton_name_result) ∨
         (60 < tv ∧ tv ≤ 70 ∧ r = athabasca_name_result)) := by
  unfold find_by_legal_description find_by_legal_description_t
  constructor
  · intro h
    split at h
    case isFalse => exact absurd h (by simp)
    case isTrue htype =>
      refine ⟨htype, ?_⟩
      split at h
      case h_2 => exact absurd h (by simp)
      case h_1 ts rs hts hrs =>
        split at h
        case isFalse => exact absurd h (by simp)
        case isTrue htr =>
          split at h
          case h_2 => exact absurd h (by simp)
          case h_1 tv rv htv hrv =>
            refine ⟨ts, rs, tv, rv, hts, hrs, htr.1, htr.2, htv, hrv, ?_⟩
            by_cases hb1 : red_deer_band tv rv = true
            · rw [if_pos hb1, find_by_name_red_deer_eval] at h
              have hr := Option.some_injective _ h
              simp only [red_deer_band, Bool.and_eq_true, decide_eq_true_eq] at hb1
              exact ⟨by omega, by omega, Or.inl ⟨by omega, by omega, hr.symm⟩⟩
            · rw [if_neg hb1] at h
              by_cases hb2 : edmonton_band tv rv = true
              · rw [if_pos hb2, find_by_name_edmonton_eval] at h
                have hr := Option.some_injective _ h
                simp only [red_deer_band, Bool.and_eq_true, decide_eq_true_eq,
                  Bool.and_eq_false_iff, decide_eq_false_iff_not] at hb1
                simp only [edmonton_band, Bool.and_eq_true, decide_eq_true_eq] at hb2
                exact ⟨by omega, by omega,
                  Or.inr (Or.inl ⟨by omega, by omega, hr.symm⟩)⟩
              · rw [if_neg hb2] at h
                by_cases hb3 : athabasca_band tv rv = true
                · rw [if_pos hb3, find_by_name_athabasca_eval] at h
                  have hr := Option.some_injective _ h
                  simp only [red_deer_band, Bool.and_eq_true, decide_eq_true_eq,
                    Bool.and_eq_false_iff, decide_eq_false_iff_not] at hb1
                  simp only [edmonton_band, Bool.and_eq_true, decide_eq_true_eq,
                    Bool.and_eq_false_iff, decide_eq_false_iff_not] at hb2
                  simp only [athabasca_band, Bool.and_eq_true, decide_eq_true_eq] at hb3
                  exact ⟨by omega, by omega,
                    Or.inr (Or.inr ⟨by omega, by omega, hr.symm⟩)⟩
                · rw [if_neg hb3] at h
                  exact absurd h (by simp)
  · rintro ⟨htype, ts, rs, tv, rv, hts, hrs, hts2, hrs2, htv, hrv, hr1, hr2, hband⟩
    rw [if_pos htype]
    simp only [hts, hrs]
    rw [if_pos ⟨hts2, hrs2⟩]
    simp only [htv, hrv]
    rcases hband with ⟨h1, h2, hr⟩ | ⟨h1, h2, hr⟩ | ⟨h1, h2, hr⟩
    · have hb1 : red_deer_band tv rv = true := by
        simp only [red_deer_band, Bool.and_eq_true, decide_eq_true_eq]
        omega
      rw [if_pos hb1, find_by_name_red_deer_eval, hr]
    · have hb1 : red_deer_band tv rv = false := by
        simp only [red_deer_band, Bool.and_eq_true, decide_eq_true_eq,
          Bool.and_eq_false_iff, decide_eq_false_iff_not]
        omega
      have hb2 : edmonton_band tv rv = true := by
        simp only [edmonton_band, Bool.and_eq_true, decide_eq_true_eq]
        omega
      rw [if_neg (by simp [hb1]), if_pos hb2, find_by_name_edmonton_eval, hr]
    · have hb1 : red_deer_band tv rv = false := by
        simp only [red_deer_band, Bool.and_eq_true, decide_eq_true_eq,
          Bool.and_eq_false_iff, decide_eq_false_iff_not]
        omega
      have hb2 : edmonton_band tv rv = false := by
        simp only [edmonton_band, Bool.and_eq_true, decide_eq_true_eq,
          Bool.and_eq_false_iff, decide_eq_false_iff_not]
        omega
      have hb3 : athabasca_band tv rv = true := by
        simp only [athabasca_band, Bool.and_eq_true, decide_eq_true_eq]
        omega
      rw [if_neg (by simp [hb1]), if_neg (by simp [hb2]), if_pos hb3,
        find_by_name_athabasca_eval, hr]

/-- Witness for C4 (amended): a quarter-section record with township 45 and
range 25 resolves to Red Deer through the characterization. -/
theorem find_by_legal_description_characterization_witness :
    find_by_legal_description
      ⟨"quarter_section",
       [("quarter", "SW"), ("section", "14"), ("township", "45"),
        ("range", "25"), ("meridian_direction", "W"), ("meridian", "4")],
       "SW 14-45-25-W4"⟩ = some red_deer_name_result :=
  (find_by_legal_description_characterization _ _).mpr
    ⟨Or.inl rfl, "45", "25", 45, 25, by decide, by decide, by decide, by decide,
     by decide, by decide, by decide, by decide,
     Or.inl ⟨by decide, by decide, rfl⟩⟩

/-!  Claim C5: type assignment in `_parse_address`. -/

/-- C5 (counterexample) — an address matched by both the street pattern and
the rural pattern is typed by the rural match, not the street match: the
rural check runs second and overwrites the street result. -/
theorem parse_address_street_does_not_win :
    (search_street ("123 Main Street Highway 2").toList).isSome = true
    ∧ (search_rural ("123 Main Street Highway 2").toList).isSome = true
    ∧ (parse_address "123 Main Street Highway 2").type ≠ "street"
    ∧ (parse_address "123 Main Street Highway 2").type = "rural" := by
  refine ⟨by decide, by decide, by decide, by decide⟩

/-- C5 (amended) — when both address patterns match, the type and the
component map are set by the rural match (checked second, overwriting the
street result); when neither matches the type stays unknown; and a matched
postal code is attached to whichever component map resulted. -/
theorem parse_address_type_assignment (address : String) :
    ((search_street address.toList).isSome = true →
      (search_rural address.toList).isSome = true →
      (parse_address address).type = "rural")
    ∧ (search_street address.toList = none → search_rural address.toList = none →
      (parse_address address).type = "unknown")
    ∧ (∀ rt rn, search_rural address.toList = some (rt, rn) →
      (parse_address address).components =
        ("road_type", String.mk rt) :: ("road_number", String.mk rn) ::
          (match search_postal address.toList with
           | some pc => [("postal_code", normalize_postal pc)]
           | none => []))
    ∧ (∀ pc, search_postal address.toList = some pc →
      alistGet (parse_address address).components "postal_code" =
        some (normalize_postal pc)) := by
  refine ⟨?_, ?_, ?_, ?_⟩
  · intro hs hr
    obtain ⟨⟨rt, rn⟩, hrr⟩ := Option.isSome_iff_exists.mp hr
    cases hpc : search_postal address.toList <;>
      simp [parse_address, String.toList, hrr, hpc] at hrr hpc ⊢
  · intro hs hr
    cases hpc : search_postal address.toList <;>
      simp [parse_address, String.toList, hs, hr, hpc] at hs hr hpc ⊢
  · intro rt rn hrr
    cases hst : search_street address.toList <;>
      cases hpc : search_postal address.toList <;>
        simp [parse_address, String.toList, hst, hrr, hpc] at hst hrr hpc ⊢
  · intro pc hpc
    cases hst : search_street address.toList <;>
      cases hrr : search_rural address.toList <;>
        simp [parse_address, String.toList, hst, hrr, hpc, alistGet] at hst hrr hpc ⊢

/-- Witness for C5 (amended): the both-match address is typed rural with the
rural components. -/
theorem parse_address_type_assignment_witness :
    (parse_address "123 Main Street Highway 2").type = "rural" :=
  (parse_address_type_assignment "123 Main Street Highway 2").1
    (by decide) (by decide)

/-!  Claim C6: totality of the three zoning lookup chains. -/

/-- C6 (counterexample) — the density chain has no default branch: the
zoning code C2 - Community Commercial (produced by the zoning engine for a
commercial hint on five acres or less) matches none of its branches and
gets an empty density table, while setbacks and height do fall through to
explicit defaults. -/
theorem density_restrictions_no_default_for_c2 :
    get_density_restrictions "C2 - Community Commercial" = []
    ∧ get_typical_setbacks "C2 - Community Commercial" ≠ []
    ∧ get_height_restrictions "C2 - Community Commercial" ≠ [] := by
  refine ⟨by decide, by decide, by decide⟩

/-- C6 (amended) — the setbacks and height chains end in explicit default
branches and return a non-empty table for every zoning code; the density
chain has no default branch and returns the empty table exactly when none
of its substring branches matches. -/
theorem zoning_lookup_chain_totality (zoning : String) :
    get_typical_setbacks zoning ≠ []
    ∧ get_height_restrictions zoning ≠ []
    ∧ (get_density_restrictions zoning = [] ↔
        ¬(strIn "RC" zoning = true ∨ strIn "Rural Commercial" zoning = true
          ∨ strIn "RUR" zoning = true ∨ strIn "Rural" zoning = true
          ∨ strIn "R1" zoning = true)) := by
  refine ⟨?_, ?_, ?_⟩
  · unfold get_typical_setbacks
    split_ifs <;> simp
  · unfold get_height_restrictions
    split_ifs <;> simp
  · cases h1 : strIn "RC" zoning <;> cases h2 : strIn "Rural Commercial" zoning <;>
      cases h3 : strIn "RUR" zoning <;> cases h4 : strIn "Rural" zoning <;>
        cases h5 : strIn "R1" zoning <;>
          simp [get_density_restrictions, h1, h2, h3, h4, h5]

/-- Witness for C6 (amended): instantiation at the C2 zoning code. -/
theorem zoning_lookup_chain_totality_witness :
    get_density_restrictions "C2 - Community Commercial" = [] :=
  (zoning_lookup_chain_totality "C2 - Community Commercial").2.2.mpr (by decide)

/-!  Claim C7: the coordinate strategy never exceeds 50 km. -/

/-- What holds of every kept (record, distance) pair in the coordinate
loop: the stored distance is the distance function's value at the record's
own reference point and is strictly below 50. -/
def coord_ok (dist : ℚ × ℚ → ℚ × ℚ → ℚ) (lat lon : ℚ) (pr : MuniResult × ℚ) :
    Prop :=
  pr.1.distance_km = some pr.2 ∧ pr.2 < 50
    ∧ pr.2 = dist (lat, lon) (pr.1.data.lat, pr.1.data.lon)

/-- A kept pair satisfies `coord_ok` after one step when it did before. -/
theorem coord_step_ok (dist : ℚ × ℚ → ℚ × ℚ → ℚ) (lat lon : ℚ)
    (e : String × String × MunicipalityData) (best : Option (MuniResult × ℚ))
    (hbest : ∀ pr, best = some pr → coord_ok dist lat lon pr) :
    ∀ pr, coord_step dist lat lon e best = some pr → coord_ok dist lat lon pr := by
  intro pr h
  simp only [coord_step] at h
  split at h
  case isTrue hcond =>
    obtain rfl := (Option.some_injective _ h).symm
    simp only [Bool.and_eq_true, decide_eq_true_eq] at hcond
    exact ⟨rfl, hcond.1, rfl⟩
  case isFalse => exact hbest pr h

/-- The loop invariant extends over any entry list. -/
theorem coord_loop_ok (dist : ℚ × ℚ → ℚ × ℚ → ℚ) (lat lon : ℚ) :
    ∀ (es : List (String × String × MunicipalityData))
      (best : Option (MuniResult × ℚ)),
      (∀ pr, best = some pr → coord_ok dist lat lon pr) →
      ∀ pr, coord_loop dist lat lon es best = some pr → coord_ok dist lat lon pr
  | [], _, hbest, pr, h => hbest pr h
  | _ :: es, best, hbest, pr, h =>
    coord_loop_ok dist lat lon es _ (coord_step_ok dist lat lon _ best hbest) pr h

/-- C7 — whenever the coordinate strategy returns a municipality, the
record's stored distance is the distance from the query point to that
municipality's reference coordinates and is strictly below 50 km; the
strategy never returns a municipality 50 km or farther away. -/
theorem find_by_coordinates_within_50km (dist : ℚ × ℚ → ℚ × ℚ → ℚ)
    (lat lon : ℚ) (r : MuniResult)
    (h : find_by_coordinates dist lat lon = some r) :
    ∃ d, r.distance_km = some d ∧ d = dist (lat, lon) (r.data.lat, r.data.lon)
      ∧ d < 50 := by
  unfold find_by_coordinates find_by_coordinates_t at h
  obtain ⟨pr, hpr, hfst⟩ := Option.map_eq_some'.mp h
  obtain ⟨h1, h2, h3⟩ :=
    coord_loop_ok dist lat lon (coord_entry_list municipalities_data) none
      (by intro pr hpr; cases hpr) pr hpr
  exact ⟨pr.2, hfst ▸ h1, hfst ▸ h3, h2⟩

/-- A constant distance function used to witness C7. -/
def c7_dist : ℚ × ℚ → ℚ × ℚ → ℚ := fun _ _ => 10

/-- Witness for C7: under a constant 10 km distance the strategy returns
Red Deer (first entry reaching the minimum), 10 km away. -/
theorem find_by_coordinates_within_50km_witness :
    ∃ d, (⟨red_deer_data, "Red Deer", "citie", some 10⟩ : MuniResult).distance_km
        = some d
      ∧ d = c7_dist (0, 0) (red_deer_data.lat, red_deer_data.lon) ∧ d < 50 :=
  find_by_coordinates_within_50km c7_dist 0 0
    ⟨red_deer_data, "Red Deer", "citie", some 10⟩ (by decide)

/-!  Claim C10: the policy memo cache. -/

/-- C10 — `get_land_use_policies` cache contract: a hit returns the stored
record without recomputation and without touching the cache; on a miss, a
body that raises leaves the cache unchanged and returns a record carrying
the error field (so the same key recomputes later); a body that completes
stores exactly the returned record under the key, with no error field. -/
theorem get_land_use_policies_cache_contract (body : Except String PolicyUpdates)
    (mname : String) (hv : Int) (contact : ContactInfo) (now : String)
    (s : PolicyState) :
    (∀ p, alistGet s.policy_cache (policy_cache_key mname hv) = some p →
      get_land_use_policies body mname hv contact now s = (p, s))
    ∧ (alistGet s.policy_cache (policy_cache_key mname hv) = none →
        ∀ e, body = Except.error e →
          (get_land_use_policies body mname hv contact now s).1.error =
              some ("Error retrieving policy information: " ++ e)
            ∧ (get_land_use_policies body mname hv contact now s).2 = s)
    ∧ (alistGet s.policy_cache (policy_cache_key mname hv) = none →
        ∀ u, body = Except.ok u →
          (get_land_use_policies body mname hv contact now s).2.policy_cache =
              (policy_cache_key mname hv,
               (get_land_use_policies body mname hv contact now s).1) ::
                s.policy_cache
            ∧ (get_land_use_policies body mname hv contact now s).1.error = none) := by
  refine ⟨?_, ?_, ?_⟩
  · intro p hp
    simp [get_land_use_policies, hp]
  · intro hmiss e hbody
    subst hbody
    simp [get_land_use_policies, hmiss]
  · intro hmiss u hbody
    subst hbody
    simp [get_land_use_policies, hmiss, apply_policy_updates, base_policy_info]

/-- Witness for C10: on an empty cache, a raising body leaves the state
unchanged. -/
theorem get_land_use_policies_cache_contract_witness :
    (get_land_use_policies (Except.error "boom") "Red Deer" 0 ⟨"311", "sq"⟩ "t"
        ⟨[]⟩).2 = (⟨[]⟩ : PolicyState) :=
  ((get_land_use_policies_cache_contract (Except.error "boom") "Red Deer" 0
      ⟨"311", "sq"⟩ "t" ⟨[]⟩).2.1 rfl "boom" rfl).2
